import Mathlib

/-!
Shallow embedding of the slack-bot webhook receiver.

This file embeds the two Go functions of the repository —
`verifySlackRequestMiddleware` and `handleSlackEvents` (src/unnamed/part_000,
the full version; `main` in src/main.go only wires middleware → handler on
POST /slack/events) — and proves properties of the composed request pipeline.

Modelling decisions, each tied to a source line:

* Outcomes of external library calls (`io.ReadAll` on the network body,
  `slack.NewSecretsVerifier`, `verifier.Write`, `slackClient.PostMessage`,
  `slackevents.ParseEvent`, `json.Unmarshal`) are carried as fields of the
  request record: the repository only branches on whether each call returned
  an error, so a field recording the call's result is a faithful abstraction.
  The signature comparison performed by `verifier.Ensure()` (line 91) is
  modelled parametrically: `mac secret timestamp body` stands for the
  HMAC-hex the library computes, and `Ensure` succeeds exactly when the
  request's signature header equals it.
* `time.Since(time.Unix(t, 0)) > 5*time.Minute` (line 106) is modelled with
  Go's `time` package arithmetic made explicit: `time.Unix(t, 0)` stores
  `t + 62135596800` (seconds from year 1 to the Unix epoch) in a wrapping
  `int64`, and `Time.Sub` returns the exact difference in nanoseconds when
  it is representable in `int64`, saturating at the minimum or maximum
  `Duration` otherwise. The clock reading `nowNs` is nanoseconds since the
  Unix epoch, split into Go's seconds/nanoseconds pair by floor division.
* `c.JSON`, `c.Data` and `c.Status` each write one response; a pipeline run
  collects every written response in a list, together with every outbound
  `PostMessage` call and whether the handler was invoked (`c.Next()` ran).
-/

namespace SlackBot

/-- One HTTP response as written by `c.JSON`, `c.Data` or `c.Status`.
For `c.JSON` the body is the error message of the `gin.H` object and the
content type is gin's JSON content type; for `c.Status` both are empty. -/
structure HttpResponse where
  status : Nat
  contentType : String
  body : String
deriving DecidableEq, Repr

/-- One outbound `slackClient.PostMessage` call (lines 150–154): target
channel, message text, and the `MsgOptionAsUser(true)` flag. -/
structure OutboundMessage where
  channel : String
  text : String
  asUser : Bool
deriving DecidableEq, Repr

/-- The inner event of an `event_callback` payload, as the `switch` on
`innerEvent.Data.(type)` (line 146) distinguishes it: an
`*slackevents.AppMentionEvent` with the fields the handler reads
(`ev.User`, `ev.Text`, `ev.Channel`), or any other data type. -/
inductive InnerEventData where
  | appMention (user text channel : String)
  | other (typeName : String)
deriving DecidableEq, Repr

/-- Result of `slackevents.ParseEvent` (line 124): the outer event type is
`url_verification`, `event_callback` (carrying an inner event), or some
other type string, on which the handler falls through to the final 200. -/
inductive ParsedEvent where
  | urlVerification
  | callbackEvent (inner : InnerEventData)
  | otherEvent (typeName : String)
deriving DecidableEq, Repr

/-- An inbound HTTP request together with the outcomes of the external
library calls made while processing it (see the module comment).
`bodyRead` is the result of `io.ReadAll(c.Request.Body)` (line 61):
`none` models a read error, `some body` the raw bytes read.
`challengeUnmarshal` is the result of `json.Unmarshal` into
`slackevents.ChallengeResponse` (line 134): `some ch` when the payload's
`challenge` field is the string `ch`, `none` when unmarshalling fails.
`postMessageOk` records whether `slackClient.PostMessage` returned an
error (line 150); the handler only logs that error. -/
structure SlackRequest where
  bodyRead : Option (List Nat)
  timestampHeader : String
  signatureHeader : String
  verifierCreateOk : Bool
  verifierWriteOk : Bool
  payload : Option ParsedEvent
  challengeUnmarshal : Option String
  postMessageOk : Bool
deriving DecidableEq, Repr

/-- Digit accumulator for `parseInt64`. -/
def digitsValAux : List Char → Nat → Option Nat
  | [], acc => some acc
  | c :: cs, acc =>
    if c.isDigit then digitsValAux cs (acc * 10 + (c.toNat - 48)) else none

/-- Value of a nonempty all-digit character list. -/
def digitsVal : List Char → Option Nat
  | [] => none
  | cs => digitsValAux cs 0

/-- Largest value of Go's `int64`. -/
def int64Max : Int := 9223372036854775807

/-- Smallest value of Go's `int64`. -/
def int64Min : Int := -9223372036854775808

/-- Embedding of `strconv.ParseInt(s, 10, 64)` (line 99): an optional sign
followed by at least one decimal digit, with the value required to fit in
`int64`; every other input is an error (`none`). -/
def parseInt64 (s : String) : Option Int :=
  match s.toList with
  | [] => none
  | c :: rest =>
    let signed : Bool × List Char :=
      if c = '-' then (true, rest)
      else if c = '+' then (false, rest)
      else (false, c :: rest)
    match digitsVal signed.2 with
    | none => none
    | some n =>
      let v : Int := if signed.1 then -(n : Int) else (n : Int)
      if int64Min ≤ v ∧ v ≤ int64Max then some v else none

/-- Nanoseconds per second: Go durations are counted in nanoseconds. -/
def nsPerSecond : Int := 1000000000

/-- `5 * time.Minute` in nanoseconds. -/
def replayWindowNs : Int := 5 * 60 * nsPerSecond

/-- Seconds from January 1 of year 1 to the Unix epoch: Go's
`unixToInternal` constant, added by `time.Unix` to the Unix seconds. -/
def unixToInternal : Int := 62135596800

/-- Wrap into the `int64` range by two's complement, as Go's `int64`
addition behaves. -/
def wrapInt64 (x : Int) : Int :=
  (x + 9223372036854775808) % 18446744073709551616 - 9223372036854775808

/-- Largest Go `time.Duration` in nanoseconds (`maxDuration`), at which
`Time.Sub` saturates when the exact difference overflows. -/
def maxDurationNs : Int := 9223372036854775807

/-- Smallest Go `time.Duration` in nanoseconds (`minDuration`), at which
`Time.Sub` saturates when the exact difference underflows. -/
def minDurationNs : Int := -9223372036854775808

/-- `time.Since(time.Unix(t, 0))` in nanoseconds at clock reading `nowNs`
(nanoseconds since the Unix epoch): the signed age of the timestamp,
negative for future timestamps. `time.Unix(t, 0)` stores
`t + unixToInternal` in a wrapping `int64` second count with a zero
nanosecond part; `time.Since` subtracts it from the clock's
seconds/nanoseconds pair exactly, saturating at the minimum or maximum
`Duration` when the exact difference is not representable in `int64`
nanoseconds. For timestamps within about 62 billion seconds of the
`int64` maximum the wrap makes the internal time hugely negative, so the
computed age saturates at `maxDurationNs` and the timestamp counts as
stale. -/
def timeSinceUnix (nowNs t : Int) : Int :=
  let nowSec := wrapInt64 (nowNs / nsPerSecond + unixToInternal)
  let nowNsec := nowNs % nsPerSecond
  let uSec := wrapInt64 (t + unixToInternal)
  let d := (nowSec - uSec) * nsPerSecond + nowNsec
  if d < minDurationNs then minDurationNs
  else if maxDurationNs < d then maxDurationNs
  else d

/-- Gin's JSON content type, written by `c.JSON`. -/
def jsonContentType : String := "application/json; charset=utf-8"

/-- The response written by `c.JSON(status, gin.H{"error": msg})`. -/
def jsonError (status : Nat) (msg : String) : HttpResponse :=
  { status := status, contentType := jsonContentType, body := msg }

/-- Outcome of the middleware: either it wrote a response and called
`c.Abort()` (so the handler never runs), or it called `c.Next()` after
restoring the body bytes `body` for the handler (line 68). -/
inductive MWOutcome where
  | reject (resp : HttpResponse)
  | pass (body : List Nat)
deriving DecidableEq, Repr

/-- Embedding of `verifySlackRequestMiddleware` (lines 59–114). The steps in
source order: read the body (400 on error), restore it, create the verifier
(500 on error), write the body to it (500 on error), `Ensure()` the
signature (401 on mismatch), parse the timestamp header (400 on error), and
reject timestamps older than the replay window (401); otherwise `c.Next()`.
`mac secret timestamp body` is the signature the library computes. -/
def verifySlackRequestMiddleware (mac : String → String → List Nat → String)
    (slackSigningSecret : String) (nowNs : Int) (req : SlackRequest) :
    MWOutcome :=
  match req.bodyRead with
  | none => .reject (jsonError 400 "Failed to read request body")
  | some body =>
    if req.verifierCreateOk = false then
      .reject (jsonError 500 "Internal server error")
    else if req.verifierWriteOk = false then
      .reject (jsonError 500 "Internal server error")
    else if req.signatureHeader ≠ mac slackSigningSecret req.timestampHeader body then
      .reject (jsonError 401 "Slack signature verification failed")
    else
      match parseInt64 req.timestampHeader with
      | none => .reject (jsonError 400 "Invalid timestamp")
      | some t =>
        if timeSinceUnix nowNs t > replayWindowNs then
          .reject (jsonError 401 "Request timestamp too old")
        else
          .pass body

/-- The text `fmt.Sprintf("Hello <@%s>! You mentioned me: %s", ev.User,
ev.Text)` posted in reply to an app mention (line 152). -/
def mentionReplyText (user text : String) : String :=
  "Hello <@" ++ user ++ ">! You mentioned me: " ++ text

/-- What a handler run produced: the response it wrote and the outbound
`PostMessage` calls it made, in order. -/
structure HandlerResult where
  response : HttpResponse
  outbound : List OutboundMessage
deriving DecidableEq, Repr

/-- Embedding of `handleSlackEvents` (lines 116–165): re-read the body
(400 on error; never fails when reached through the middleware, which
installed an in-memory buffer), parse the event (500 on error), answer a
`url_verification` payload with its challenge as `text/plain` (500 if the
challenge does not unmarshal), post one reply for an `event_callback`
whose inner event is an app mention (a `PostMessage` error is only
logged), and acknowledge everything else with a bare 200 status. -/
def handleSlackEvents (req : SlackRequest) (bodyRead : Option (List Nat)) :
    HandlerResult :=
  match bodyRead with
  | none => ⟨jsonError 400 "Failed to read request body", []⟩
  | some _ =>
    match req.payload with
    | none => ⟨jsonError 500 "Internal server error", []⟩
    | some .urlVerification =>
      match req.challengeUnmarshal with
      | none => ⟨jsonError 500 "Failed to unmarshal challenge response", []⟩
      | some challenge => ⟨⟨200, "text/plain", challenge⟩, []⟩
    | some (.callbackEvent inner) =>
      match inner with
      | .appMention user text channel =>
        ⟨⟨200, "", ""⟩, [⟨channel, mentionReplyText user text, true⟩]⟩
      | .other _ => ⟨⟨200, "", ""⟩, []⟩
    | some (.otherEvent _) => ⟨⟨200, "", ""⟩, []⟩

/-- Everything one request produced end to end: the responses written (in
order), the outbound calls made, and whether the handler ran. -/
structure PipelineTrace where
  responses : List HttpResponse
  outbound : List OutboundMessage
  handlerInvoked : Bool
deriving DecidableEq, Repr

/-- The composed pipeline `router.Use(verifySlackRequestMiddleware);
router.POST("/slack/events", handleSlackEvents)` (src/main.go lines
34–38): if the middleware aborts, its response is the whole trace; if it
passes, the handler runs on the restored body bytes. -/
def pipeline (mac : String → String → List Nat → String)
    (slackSigningSecret : String) (nowNs : Int) (req : SlackRequest) :
    PipelineTrace :=
  match verifySlackRequestMiddleware mac slackSigningSecret nowNs req with
  | .reject resp => ⟨[resp], [], false⟩
  | .pass body =>
    let h := handleSlackEvents req (some body)
    ⟨[h.response], h.outbound, true⟩

/-- The program's global mutable state (src/unnamed/part_000 lines 20–22):
the Slack client (identified by its bot token) and the signing secret.
`main` writes both once at startup; the middleware and handler only read
them. -/
structure Globals where
  slackClient : String
  slackSigningSecret : String
deriving DecidableEq, Repr

/-- The pipeline run against the global state: the middleware and handler
contain no assignment to either global, so a run returns the globals
unchanged alongside the trace. -/
def pipelineWithGlobals (mac : String → String → List Nat → String)
    (g : Globals) (nowNs : Int) (req : SlackRequest) :
    PipelineTrace × Globals :=
  (pipeline mac g.slackSigningSecret nowNs req, g)

/-- The middleware passes a request through with body `body` exactly when:
the body read succeeded and returned `body`, verifier creation and write
succeeded, the signature header matches the computed signature over those
bytes, and the timestamp header parses to an integer no older than the
replay window. -/
theorem middleware_pass_iff (mac : String → String → List Nat → String)
    (secret : String) (nowNs : Int) (req : SlackRequest) (body : List Nat) :
    verifySlackRequestMiddleware mac secret nowNs req = .pass body ↔
      req.bodyRead = some body ∧ req.verifierCreateOk = true ∧
      req.verifierWriteOk = true ∧
      req.signatureHeader = mac secret req.timestampHeader body ∧
      ∃ t, parseInt64 req.timestampHeader = some t ∧
        timeSinceUnix nowNs t ≤ replayWindowNs := by
  obtain ⟨rb, tsh, sh, vc, vw, pl, chm, pok⟩ := req
  rcases rb with _ | b
  · simp [verifySlackRequestMiddleware]
  · rcases vc with _ | _
    · simp [verifySlackRequestMiddleware]
    · rcases vw with _ | _
      · simp [verifySlackRequestMiddleware]
      · by_cases h3 : sh = mac secret tsh b
        · rcases ht : parseInt64 tsh with _ | t
          · simp [verifySlackRequestMiddleware, h3, ht]
          · by_cases h4 : timeSinceUnix nowNs t > replayWindowNs
            · simp [verifySlackRequestMiddleware, h3, ht, h4]
            · simp [verifySlackRequestMiddleware, h3, ht, h4]
              rintro rfl
              exact ⟨rfl, by omega⟩
        · simp [verifySlackRequestMiddleware, h3]
          rintro rfl hsig
          exact absurd hsig h3

/-- Every response the middleware writes on an abort is an HTTP error
status: one of 400, 500 or 401. -/
theorem middleware_reject_status (mac : String → String → List Nat → String)
    (secret : String) (nowNs : Int) (req : SlackRequest) (resp : HttpResponse)
    (h : verifySlackRequestMiddleware mac secret nowNs req = .reject resp) :
    400 ≤ resp.status := by
  obtain ⟨rb, tsh, sh, vc, vw, pl, chm, pok⟩ := req
  rcases rb with _ | b
  · simp [verifySlackRequestMiddleware] at h
    simp [← h, jsonError]
  · rcases vc with _ | _
    · simp [verifySlackRequestMiddleware] at h
      simp [← h, jsonError]
    · rcases vw with _ | _
      · simp [verifySlackRequestMiddleware] at h
        simp [← h, jsonError]
      · by_cases h3 : sh = mac secret tsh b
        · rcases ht : parseInt64 tsh with _ | t
          · simp [verifySlackRequestMiddleware, h3, ht] at h
            simp [← h, jsonError]
          · by_cases h4 : timeSinceUnix nowNs t > replayWindowNs
            · simp [verifySlackRequestMiddleware, h3, ht, h4] at h
              simp [← h, jsonError]
            · simp [verifySlackRequestMiddleware, h3, ht, h4] at h
        · simp [verifySlackRequestMiddleware, h3] at h
          simp [← h, jsonError]

/-- When the payload fails to parse, the handler answers 500 and makes no
outbound call (lines 125–129). -/
theorem handleSlackEvents_parseError (req : SlackRequest) (body : List Nat)
    (h : req.payload = none) :
    handleSlackEvents req (some body) =
      ⟨jsonError 500 "Internal server error", []⟩ := by
  obtain ⟨rb, tsh, sh, vc, vw, pl, chm, pok⟩ := req
  dsimp only at h
  subst h
  rfl

/-- On a `url_verification` payload whose challenge unmarshals to `ch`, the
handler answers 200 `text/plain` with body `ch` and makes no outbound call
(lines 131–141). -/
theorem handleSlackEvents_urlVerification (req : SlackRequest)
    (body : List Nat) (ch : String)
    (hp : req.payload = some .urlVerification)
    (hc : req.challengeUnmarshal = some ch) :
    handleSlackEvents req (some body) = ⟨⟨200, "text/plain", ch⟩, []⟩ := by
  obtain ⟨rb, tsh, sh, vc, vw, pl, chm, pok⟩ := req
  dsimp only at hp hc
  subst hp
  subst hc
  rfl

/-- On a `url_verification` payload whose challenge fails to unmarshal, the
handler answers 500 and makes no outbound call (lines 134–138). -/
theorem handleSlackEvents_challengeError (req : SlackRequest)
    (body : List Nat)
    (hp : req.payload = some .urlVerification)
    (hc : req.challengeUnmarshal = none) :
    handleSlackEvents req (some body) =
      ⟨jsonError 500 "Failed to unmarshal challenge response", []⟩ := by
  obtain ⟨rb, tsh, sh, vc, vw, pl, chm, pok⟩ := req
  dsimp only at hp hc
  subst hp
  subst hc
  rfl

/-- On an `event_callback` payload whose inner event is an app mention, the
handler posts exactly one message — to the event's channel, with the
interpolated reply text, as the bot user — and answers a bare 200
(lines 144–164). -/
theorem handleSlackEvents_mention (req : SlackRequest) (body : List Nat)
    (user text channel : String)
    (hp : req.payload = some (.callbackEvent (.appMention user text channel))) :
    handleSlackEvents req (some body) =
      ⟨⟨200, "", ""⟩, [⟨channel, mentionReplyText user text, true⟩]⟩ := by
  obtain ⟨rb, tsh, sh, vc, vw, pl, chm, pok⟩ := req
  dsimp only at hp
  subst hp
  rfl

/-- On an `event_callback` payload whose inner event is not an app mention,
the handler only logs and answers a bare 200, with no outbound call
(lines 158–164). -/
theorem handleSlackEvents_otherInner (req : SlackRequest) (body : List Nat)
    (typeName : String)
    (hp : req.payload = some (.callbackEvent (.other typeName))) :
    handleSlackEvents req (some body) = ⟨⟨200, "", ""⟩, []⟩ := by
  obtain ⟨rb, tsh, sh, vc, vw, pl, chm, pok⟩ := req
  dsimp only at hp
  subst hp
  rfl

/-- Any handler run makes at most one outbound call and, when reached
through the middleware (so with an in-memory body), writes one response. -/
theorem handleSlackEvents_outbound_le_one (req : SlackRequest)
    (bodyRead : Option (List Nat)) :
    (handleSlackEvents req bodyRead).outbound.length ≤ 1 := by
  obtain ⟨rb, tsh, sh, vc, vw, pl, chm, pok⟩ := req
  rcases bodyRead with _ | b
  · simp [handleSlackEvents]
  · rcases pl with _ | p
    · simp [handleSlackEvents]
    · rcases p with _ | inner | tn
      · rcases chm with _ | ch <;> simp [handleSlackEvents]
      · rcases inner with ⟨u, tx, ch⟩ | tn <;> simp [handleSlackEvents]
      · simp [handleSlackEvents]

/-- Concrete signature function for witnesses: the "computed signature" is
the secret and the timestamp joined by a colon. -/
def macFix : String → String → List Nat → String :=
  fun secret ts _ => secret ++ ":" ++ ts

/-- Witness request: every middleware check passes against `macFix`, secret
"s3cr3t" and clock reading 0 ns; the payload is an `event_callback` whose
inner event is not an app mention. -/
def baseReq : SlackRequest :=
  { bodyRead := some [123, 125]
    timestampHeader := "100"
    signatureHeader := "s3cr3t:100"
    verifierCreateOk := true
    verifierWriteOk := true
    payload := some (.callbackEvent (.other "message"))
    challengeUnmarshal := none
    postMessageOk := true }

/-- Witness request for C1: same as `baseReq` but the signature header does
not match the computed signature. -/
def badSigReq : SlackRequest :=
  { baseReq with signatureHeader := "forged" }

/-- C1: a request whose signature does not verify against the configured
signing secret (with the body read and the verifier library calls
succeeding, so that the failure is the signature mismatch itself) is
answered 401 by the middleware and aborted with no outbound call, and the
handler is never invoked; conversely the handler runs only on requests
whose signature header equals the signature computed over the verified
body bytes. -/
theorem c1_signature_gate (mac : String → String → List Nat → String)
    (secret : String) (nowNs : Int) (req : SlackRequest) (body : List Nat)
    (hbody : req.bodyRead = some body)
    (hcreate : req.verifierCreateOk = true)
    (hwrite : req.verifierWriteOk = true)
    (hsig : req.signatureHeader ≠ mac secret req.timestampHeader body) :
    pipeline mac secret nowNs req =
      ⟨[jsonError 401 "Slack signature verification failed"], [], false⟩ ∧
    ∀ r : SlackRequest, (pipeline mac secret nowNs r).handlerInvoked = true →
      ∃ b, r.bodyRead = some b ∧
        r.signatureHeader = mac secret r.timestampHeader b := by
  constructor
  · obtain ⟨rb, tsh, sh, vc, vw, pl, chm, pok⟩ := req
    dsimp only at hbody hcreate hwrite hsig
    subst hbody
    subst hcreate
    subst hwrite
    simp [pipeline, verifySlackRequestMiddleware, hsig]
  · intro r hr
    unfold pipeline at hr
    rcases hmw : verifySlackRequestMiddleware mac secret nowNs r with resp | b <;>
      rw [hmw] at hr
    · simp at hr
    · have hfacts := (middleware_pass_iff mac secret nowNs r b).mp hmw
      exact ⟨b, hfacts.1, hfacts.2.2.2.1⟩

/-- C1 witness: the concrete forged-signature request is rejected 401 with
the handler never invoked, and handler invocation implies a matching
signature, at `macFix`, secret "s3cr3t", clock 0. -/
theorem c1_signature_gate_witness :
    pipeline macFix "s3cr3t" 0 badSigReq =
      ⟨[jsonError 401 "Slack signature verification failed"], [], false⟩ ∧
    ∀ r : SlackRequest, (pipeline macFix "s3cr3t" 0 r).handlerInvoked = true →
      ∃ b, r.bodyRead = some b ∧
        r.signatureHeader = macFix "s3cr3t" r.timestampHeader b :=
  c1_signature_gate macFix "s3cr3t" 0 badSigReq [123, 125]
    (by decide) (by decide) (by decide) (by decide)

/-- C2: a request whose timestamp header parses to a time more than the
5-minute replay window before the clock reading (with the body read and
the verifier library calls succeeding) is rejected with a 401 response and
aborted, and the handler never processes it — whether or not the
signature also matches. -/
theorem c2_stale_timestamp_rejected
    (mac : String → String → List Nat → String)
    (secret : String) (nowNs : Int) (req : SlackRequest) (body : List Nat)
    (t : Int)
    (hbody : req.bodyRead = some body)
    (hcreate : req.verifierCreateOk = true)
    (hwrite : req.verifierWriteOk = true)
    (ht : parseInt64 req.timestampHeader = some t)
    (hstale : timeSinceUnix nowNs t > replayWindowNs) :
    ∃ resp, pipeline mac secret nowNs req = ⟨[resp], [], false⟩ ∧
      resp.status = 401 := by
  obtain ⟨rb, tsh, sh, vc, vw, pl, chm, pok⟩ := req
  dsimp only at hbody hcreate hwrite ht
  subst hbody
  subst hcreate
  subst hwrite
  by_cases h3 : sh = mac secret tsh body
  · exact ⟨jsonError 401 "Request timestamp too old",
      by simp [pipeline, verifySlackRequestMiddleware, h3, ht, hstale], rfl⟩
  · exact ⟨jsonError 401 "Slack signature verification failed",
      by simp [pipeline, verifySlackRequestMiddleware, h3], rfl⟩

/-- C2 witness: `baseReq` (timestamp 100 s) observed at clock reading
1000 s (in ns) is 900 s old, beyond the 300 s window, and is rejected 401
without reaching the handler. -/
theorem c2_stale_timestamp_rejected_witness :
    timeSinceUnix 1000000000000 100 > replayWindowNs ∧
    ∃ resp, pipeline macFix "s3cr3t" 1000000000000 baseReq =
      ⟨[resp], [], false⟩ ∧ resp.status = 401 :=
  ⟨by decide,
   c2_stale_timestamp_rejected macFix "s3cr3t" 1000000000000 baseReq
     [123, 125] 100 (by decide) (by decide) (by decide) (by decide)
     (by decide)⟩

/-- Witness request for C3: a verified `event_callback` whose inner event
is an app mention with the given user, text and channel. -/
def mentionReq (user text channel : String) : SlackRequest :=
  { baseReq with payload := some (.callbackEvent (.appMention user text channel)) }

/-- C3 counterexample: two verified app-mention callbacks that differ only
in the event's user field each get exactly one reply, but the reply texts
differ, so the reply is not one canned string independent of the event's
fields: the handler interpolates `ev.User` and `ev.Text` into the message
(line 152). -/
theorem c3_canned_reply_counterexample :
    (pipeline macFix "s3cr3t" 0 (mentionReq "alice" "hi" "C1")).handlerInvoked
      = true ∧
    (pipeline macFix "s3cr3t" 0 (mentionReq "bob" "hi" "C1")).handlerInvoked
      = true ∧
    (pipeline macFix "s3cr3t" 0 (mentionReq "alice" "hi" "C1")).outbound.length
      = 1 ∧
    (pipeline macFix "s3cr3t" 0 (mentionReq "bob" "hi" "C1")).outbound.length
      = 1 ∧
    (pipeline macFix "s3cr3t" 0
        (mentionReq "alice" "hi" "C1")).outbound.map OutboundMessage.text ≠
      (pipeline macFix "s3cr3t" 0
        (mentionReq "bob" "hi" "C1")).outbound.map OutboundMessage.text := by
  decide

/-- C3 amended: on every verified callback whose inner event is an app
mention, the handler posts exactly one reply, whose text is the fixed
template "Hello <@user>! You mentioned me: text" instantiated with the
event's user and text fields — the same template for every mention event,
but not the same string. -/
theorem c3_mention_reply_template
    (mac : String → String → List Nat → String)
    (secret : String) (nowNs : Int) (req : SlackRequest) (body : List Nat)
    (user text channel : String)
    (hpass : verifySlackRequestMiddleware mac secret nowNs req = .pass body)
    (hpayload : req.payload =
      some (.callbackEvent (.appMention user text channel))) :
    pipeline mac secret nowNs req =
      ⟨[⟨200, "", ""⟩], [⟨channel, mentionReplyText user text, true⟩],
        true⟩ := by
  unfold pipeline
  rw [hpass]
  dsimp only
  rw [handleSlackEvents_mention req body user text channel hpayload]

/-- C3 amended witness: the concrete verified mention event for user
"alice" with text "hi" yields exactly the templated reply in channel
"C1". -/
theorem c3_mention_reply_template_witness :
    pipeline macFix "s3cr3t" 0 (mentionReq "alice" "hi" "C1") =
      ⟨[⟨200, "", ""⟩],
        [⟨"C1", mentionReplyText "alice" "hi", true⟩], true⟩ :=
  c3_mention_reply_template macFix "s3cr3t" 0 (mentionReq "alice" "hi" "C1")
    [123, 125] "alice" "hi" "C1" (by decide) rfl

/-- A failure detected while processing a request, one per error branch of
the middleware and handler: body read failure (line 62), verifier creation
failure (line 75), verifier write failure (line 84), signature mismatch
(line 91), unparsable timestamp (line 100), stale timestamp (line 106),
payload parse failure (line 125), and challenge unmarshal failure
(line 135). -/
def requestFailure (mac : String → String → List Nat → String)
    (secret : String) (nowNs : Int) (req : SlackRequest) : Prop :=
  req.bodyRead = none ∨
  req.verifierCreateOk = false ∨
  req.verifierWriteOk = false ∨
  (∃ body, req.bodyRead = some body ∧
    req.signatureHeader ≠ mac secret req.timestampHeader body) ∨
  parseInt64 req.timestampHeader = none ∨
  (∃ t, parseInt64 req.timestampHeader = some t ∧
    timeSinceUnix nowNs t > replayWindowNs) ∨
  req.payload = none ∨
  (req.payload = some .urlVerification ∧ req.challengeUnmarshal = none)

/-- Witness request for C4: a verified app-mention callback whose outbound
`PostMessage` call fails. -/
def postFailMentionReq : SlackRequest :=
  { baseReq with
    payload := some (.callbackEvent (.appMention "alice" "hi" "C1")),
    postMessageOk := false }

/-- C4 counterexample: on a verified app-mention callback whose outbound
post fails, the program does not return an HTTP error code — the handler
only logs the `PostMessage` error (line 156) and still acknowledges with
200, refuting "every such failure yields an HTTP error code as the
response". -/
theorem c4_error_code_counterexample :
    postFailMentionReq.postMessageOk = false ∧
    (pipeline macFix "s3cr3t" 0 postFailMentionReq).outbound.length = 1 ∧
    (pipeline macFix "s3cr3t" 0 postFailMentionReq).responses =
      [⟨200, "", ""⟩] := by
  decide

/-- C4 amended: every failure detected in the middleware or while parsing
the payload or challenge yields exactly one response, an HTTP error status
(≥ 400), with no retry or other recovery; an outbound post failure,
however, is only logged: the request is still answered 200. -/
theorem c4_failures_yield_error_codes
    (mac : String → String → List Nat → String)
    (secret : String) (nowNs : Int) :
    (∀ req, requestFailure mac secret nowNs req →
      ∃ resp, (pipeline mac secret nowNs req).responses = [resp] ∧
        400 ≤ resp.status) ∧
    (∀ req body user text channel,
      verifySlackRequestMiddleware mac secret nowNs req = .pass body →
      req.payload = some (.callbackEvent (.appMention user text channel)) →
      req.postMessageOk = false →
      (pipeline mac secret nowNs req).responses = [⟨200, "", ""⟩]) := by
  constructor
  · intro req hfail
    rcases hmw : verifySlackRequestMiddleware mac secret nowNs req with
      resp | b
    · exact ⟨resp, by simp [pipeline, hmw],
        middleware_reject_status mac secret nowNs req resp hmw⟩
    · obtain ⟨hb, hc, hw, hsig, t, ht, hfr⟩ :=
        (middleware_pass_iff mac secret nowNs req b).mp hmw
      rcases hfail with h | h | h | ⟨b', hb', hsig'⟩ | h | ⟨t', ht', hst'⟩ |
        h | ⟨hp, hch⟩
      · rw [h] at hb; exact absurd hb (by simp)
      · rw [h] at hc; exact absurd hc (by simp)
      · rw [h] at hw; exact absurd hw (by simp)
      · rw [hb] at hb'
        rcases hb' with ⟨rfl⟩
        exact absurd hsig hsig'
      · rw [h] at ht; exact absurd ht (by simp)
      · rw [ht] at ht'
        rcases ht' with ⟨rfl⟩
        omega
      · refine ⟨jsonError 500 "Internal server error", ?_, by simp [jsonError]⟩
        unfold pipeline
        rw [hmw]
        dsimp only
        rw [handleSlackEvents_parseError req b h]
      · refine ⟨jsonError 500 "Failed to unmarshal challenge response", ?_,
          by simp [jsonError]⟩
        unfold pipeline
        rw [hmw]
        dsimp only
        rw [handleSlackEvents_challengeError req b hp hch]
  · intro req body user text channel hpass hpayload hpost
    unfold pipeline
    rw [hpass]
    dsimp only
    rw [handleSlackEvents_mention req body user text channel hpayload]

/-- C4 amended witness: the concrete body-read failure is answered with a
single error response (status ≥ 400), and the concrete verified mention
whose post fails is still answered 200. -/
theorem c4_failures_yield_error_codes_witness :
    (∃ resp,
      (pipeline macFix "s3cr3t" 0
        { baseReq with bodyRead := none }).responses = [resp] ∧
      400 ≤ resp.status) ∧
    (pipeline macFix "s3cr3t" 0 postFailMentionReq).responses =
      [⟨200, "", ""⟩] :=
  ⟨(c4_failures_yield_error_codes macFix "s3cr3t" 0).1
      { baseReq with bodyRead := none }
      (by unfold requestFailure; exact Or.inl rfl),
   (c4_failures_yield_error_codes macFix "s3cr3t" 0).2
      postFailMentionReq [123, 125] "alice" "hi" "C1"
      (by decide) rfl rfl⟩

/-- C5: on every verified callback whose inner event is not an app mention,
the handler makes no outbound API call and responds with a bare HTTP 200:
the `switch` on the inner event's type routes only the app-mention case to
an action (lines 146–160). -/
theorem c5_non_mention_no_outbound
    (mac : String → String → List Nat → String)
    (secret : String) (nowNs : Int) (req : SlackRequest) (body : List Nat)
    (typeName : String)
    (hpass : verifySlackRequestMiddleware mac secret nowNs req = .pass body)
    (hpayload : req.payload = some (.callbackEvent (.other typeName))) :
    pipeline mac secret nowNs req = ⟨[⟨200, "", ""⟩], [], true⟩ := by
  unfold pipeline
  rw [hpass]
  dsimp only
  rw [handleSlackEvents_otherInner req body typeName hpayload]

/-- C5 witness: the concrete verified callback with inner event type
"message" (not an app mention) produces no outbound message and a bare
200. -/
theorem c5_non_mention_no_outbound_witness :
    pipeline macFix "s3cr3t" 0 baseReq = ⟨[⟨200, "", ""⟩], [], true⟩ :=
  c5_non_mention_no_outbound macFix "s3cr3t" 0 baseReq [123, 125] "message"
    (by decide) rfl

/-- C6: every request produces exactly one written response status and at
most one outbound API call: each abort branch of the middleware writes one
response, and every handler path writes one response and posts at most one
message. -/
theorem c6_one_status_at_most_one_post
    (mac : String → String → List Nat → String)
    (secret : String) (nowNs : Int) (req : SlackRequest) :
    (pipeline mac secret nowNs req).responses.length = 1 ∧
    (pipeline mac secret nowNs req).outbound.length ≤ 1 := by
  unfold pipeline
  rcases verifySlackRequestMiddleware mac secret nowNs req with resp | b
  · exact ⟨rfl, by simp⟩
  · exact ⟨rfl, handleSlackEvents_outbound_le_one req (some b)⟩

/-- C7: request handling is stateless and deterministic: a run returns the
global state (Slack client and signing secret) unchanged, and two runs on
the same request with the same signing secret and the same clock reading
produce the identical trace — responses, outbound calls and handler
invocation — even if the two globals hold different client tokens. -/
theorem c7_stateless_deterministic
    (mac : String → String → List Nat → String)
    (g1 g2 : Globals) (nowNs : Int) (req : SlackRequest)
    (hsec : g1.slackSigningSecret = g2.slackSigningSecret) :
    (pipelineWithGlobals mac g1 nowNs req).2 = g1 ∧
    (pipelineWithGlobals mac g1 nowNs req).1 =
      (pipelineWithGlobals mac g2 nowNs req).1 := by
  exact ⟨rfl, by simp [pipelineWithGlobals, hsec]⟩

/-- C7 witness: two global states with different client tokens but the
same signing secret give identical traces on the concrete request, and the
run leaves the globals unchanged. -/
theorem c7_stateless_deterministic_witness :
    (pipelineWithGlobals macFix ⟨"botTokenA", "s3cr3t"⟩ 0 baseReq).2 =
      ⟨"botTokenA", "s3cr3t"⟩ ∧
    (pipelineWithGlobals macFix ⟨"botTokenA", "s3cr3t"⟩ 0 baseReq).1 =
      (pipelineWithGlobals macFix ⟨"botTokenB", "s3cr3t"⟩ 0 baseReq).1 :=
  c7_stateless_deterministic macFix ⟨"botTokenA", "s3cr3t"⟩
    ⟨"botTokenB", "s3cr3t"⟩ 0 baseReq rfl

/-- C8: whenever the middleware passes a request through, the body bytes it
hands the handler are exactly the bytes it read and signature-verified:
the restored buffer (line 68) holds the same `body` the verifier checked
(lines 83, 91), and the handler runs on precisely those bytes. -/
theorem c8_handler_gets_verified_bytes
    (mac : String → String → List Nat → String)
    (secret : String) (nowNs : Int) (req : SlackRequest) (body : List Nat)
    (hpass : verifySlackRequestMiddleware mac secret nowNs req =
      .pass body) :
    req.bodyRead = some body ∧
    req.signatureHeader = mac secret req.timestampHeader body ∧
    pipeline mac secret nowNs req =
      ⟨[(handleSlackEvents req (some body)).response],
        (handleSlackEvents req (some body)).outbound, true⟩ := by
  obtain ⟨hb, hc, hw, hsig, t, ht, hfr⟩ :=
    (middleware_pass_iff mac secret nowNs req body).mp hpass
  refine ⟨hb, hsig, ?_⟩
  unfold pipeline
  rw [hpass]

/-- C8 witness: on the concrete passing request the handler runs on the
very bytes `[123, 125]` that were read and verified. -/
theorem c8_handler_gets_verified_bytes_witness :
    baseReq.bodyRead = some [123, 125] ∧
    baseReq.signatureHeader = macFix "s3cr3t" baseReq.timestampHeader
      [123, 125] ∧
    pipeline macFix "s3cr3t" 0 baseReq =
      ⟨[(handleSlackEvents baseReq (some [123, 125])).response],
        (handleSlackEvents baseReq (some [123, 125])).outbound, true⟩ :=
  c8_handler_gets_verified_bytes macFix "s3cr3t" 0 baseReq [123, 125]
    (by decide)

/-- Any value already in the `int64` range is unchanged by the
two's-complement wrap. -/
theorem wrapInt64_eq_self (x : Int) (hlo : int64Min ≤ x)
    (hhi : x ≤ int64Max) : wrapInt64 x = x := by
  unfold wrapInt64 int64Min int64Max at *
  omega

/-- A successfully parsed timestamp lies in the `int64` range: `parseInt64`
returns a value only after its range check. -/
theorem parseInt64_range (s : String) (t : Int) (h : parseInt64 s = some t) :
    int64Min ≤ t ∧ t ≤ int64Max := by
  unfold parseInt64 at h
  rcases hc : s.toList with _ | ⟨c, rest⟩ <;> simp only [hc] at h
  · exact absurd h (by simp)
  · generalize (if c = '-' then (true, rest)
      else if c = '+' then (false, rest)
      else (false, c :: rest) : Bool × List Char) = sg at h
    obtain ⟨b, ds⟩ := sg
    rcases hd : digitsVal ds with _ | n <;> simp only [hd] at h
    · exact absurd h (by simp)
    · generalize (if b = true then -(n : Int) else (n : Int)) = v at h
      split_ifs at h with hr
      rcases h with ⟨rfl⟩
      exact hr

/-- Below the wrap region, the computed age is the exact (or negatively
saturated) signed age: if the clock is nonnegative with an in-range
internal second count, and `t + unixToInternal` does not exceed the
`int64` maximum, then a timestamp at or after five minutes before the
clock reading has a computed age at most the replay window. -/
theorem timeSinceUnix_le_window_of_no_wrap (nowNs t : Int)
    (h0 : 0 ≤ nowNs)
    (hclock : nowNs / nsPerSecond + unixToInternal ≤ int64Max)
    (hlo : int64Min ≤ t)
    (hhi : t + unixToInternal ≤ int64Max)
    (hfresh : nowNs - t * nsPerSecond ≤ replayWindowNs) :
    timeSinceUnix nowNs t ≤ replayWindowNs := by
  simp only [timeSinceUnix, wrapInt64, nsPerSecond, unixToInternal,
    int64Max, int64Min, minDurationNs, maxDurationNs, replayWindowNs] at *
  split_ifs <;> omega

/-- Witness request for the C9 counterexample: the timestamp header is the
largest `int64` value, with a matching signature and everything else as in
`baseReq`. -/
def farFutureWrapReq : SlackRequest :=
  { baseReq with
    timestampHeader := "9223372036854775807",
    signatureHeader := "s3cr3t:9223372036854775807" }

/-- C9 counterexample: the timestamp 9223372036854775807 s parses as an
integer and lies far in the future of the clock reading 0, so under the
claim the replay check should pass it; instead the middleware rejects it
with 401 "Request timestamp too old": `time.Unix` wraps
`t + unixToInternal` past the `int64` maximum to a hugely negative
internal time, `time.Since` saturates at the maximum duration, and line
106 sees an age beyond the window. -/
theorem c9_wraparound_counterexample :
    parseInt64 "9223372036854775807" = some 9223372036854775807 ∧
    (0 : Int) < 9223372036854775807 ∧
    timeSinceUnix 0 9223372036854775807 = maxDurationNs ∧
    verifySlackRequestMiddleware macFix "s3cr3t" 0 farFutureWrapReq =
      .reject (jsonError 401 "Request timestamp too old") := by
  decide

/-- C9 amended: the replay check is one-sided on the signed computed age —
line 106 compares only `time.Since`, never its absolute value — so
whenever the earlier middleware steps succeed, the timestamp header parses
to an integer `t` at or after five minutes before the receipt time
(`nowNs - t·10⁹ ≤` the window, which includes every future timestamp),
`t + unixToInternal` does not exceed the `int64` maximum (beyond which
`time.Unix` wraps and the request is instead rejected as too old), and the
clock reading is nonnegative with an in-range internal second count, the
middleware passes the request through. -/
theorem c9_replay_check_one_sided_no_wrap
    (mac : String → String → List Nat → String)
    (secret : String) (nowNs : Int) (req : SlackRequest) (body : List Nat)
    (t : Int)
    (hbody : req.bodyRead = some body)
    (hcreate : req.verifierCreateOk = true)
    (hwrite : req.verifierWriteOk = true)
    (hsig : req.signatureHeader = mac secret req.timestampHeader body)
    (ht : parseInt64 req.timestampHeader = some t)
    (hclock0 : 0 ≤ nowNs)
    (hclock : nowNs / nsPerSecond + unixToInternal ≤ int64Max)
    (hnowrap : t + unixToInternal ≤ int64Max)
    (hfresh : nowNs - t * nsPerSecond ≤ replayWindowNs) :
    verifySlackRequestMiddleware mac secret nowNs req = .pass body :=
  (middleware_pass_iff mac secret nowNs req body).mpr
    ⟨hbody, hcreate, hwrite, hsig, t, ht,
      timeSinceUnix_le_window_of_no_wrap nowNs t hclock0 hclock
        (parseInt64_range req.timestampHeader t ht).1 hnowrap hfresh⟩

/-- C9 amended witness: a timestamp of 9 000 000 000 s, about 255 years
after the clock reading 0 (its computed age is negative) and below the
wrap region, passes the replay check and the whole middleware. -/
theorem c9_replay_check_one_sided_no_wrap_witness :
    timeSinceUnix 0 9000000000 < 0 ∧
    verifySlackRequestMiddleware macFix "s3cr3t" 0
      { baseReq with
        timestampHeader := "9000000000",
        signatureHeader := "s3cr3t:9000000000" } = .pass [123, 125] :=
  ⟨by decide,
   c9_replay_check_one_sided_no_wrap macFix "s3cr3t" 0
     { baseReq with
       timestampHeader := "9000000000",
       signatureHeader := "s3cr3t:9000000000" }
     [123, 125] 9000000000 (by decide) (by decide) (by decide) (by decide)
     (by decide) (by decide) (by decide) (by decide) (by decide)⟩

/-- Witness request for C10: a verified `url_verification` payload whose
challenge field unmarshals to "chal123". -/
def urlVerificationReq : SlackRequest :=
  { baseReq with
    payload := some .urlVerification,
    challengeUnmarshal := some "chal123" }

/-- C10: on every verified request whose payload parses as a
`url_verification` event and whose challenge field unmarshals to the
string `ch`, the handler responds 200 with content type `text/plain` and
body `ch`, and makes no outbound API call (lines 131–141). -/
theorem c10_url_verification_challenge
    (mac : String → String → List Nat → String)
    (secret : String) (nowNs : Int) (req : SlackRequest) (body : List Nat)
    (ch : String)
    (hpass : verifySlackRequestMiddleware mac secret nowNs req = .pass body)
    (hpayload : req.payload = some .urlVerification)
    (hch : req.challengeUnmarshal = some ch) :
    pipeline mac secret nowNs req =
      ⟨[⟨200, "text/plain", ch⟩], [], true⟩ := by
  unfold pipeline
  rw [hpass]
  dsimp only
  rw [handleSlackEvents_urlVerification req body ch hpayload hch]

/-- C10 witness: the concrete verified `url_verification` request is
answered 200 `text/plain` with body "chal123" and no outbound call. -/
theorem c10_url_verification_challenge_witness :
    pipeline macFix "s3cr3t" 0 urlVerificationReq =
      ⟨[⟨200, "text/plain", "chal123"⟩], [], true⟩ :=
  c10_url_verification_challenge macFix "s3cr3t" 0 urlVerificationReq
    [123, 125] "chal123" (by decide) rfl rfl

end SlackBot
